import Mathlib

/-!
Shallow embedding of `src/src/icpslam/octree_mapper.cpp` (class `OctreeMapper`).

Modelling conventions:
- Point coordinates are exact integers (`ℤ`); the claims under study concern
  control flow, insertion and dedup logic, not floating-point rounding.
- `pcl::PointCloud` is a `List Vec3` in storage order; out-parameters of the
  C++ functions become explicit inputs (their prior content) and outputs.
- The octree with fixed resolution `r` is modelled by its observable content:
  a point's voxel is the triple of floor-divisions of its coordinates by `r`,
  and a voxel is occupied iff some stored map point falls in it.
- The PCL octree `approxNearestSearch` (external library) is modelled as a
  deterministic nearest scan over the backing cloud returning `-1` exactly on
  an empty map; the theorems below do not depend on which in-range index an
  approximate search would return.
- The PCL GICP optimizer (external library) is abstracted as an `engine`
  parameter; `estimateTransformICP` keeps the library's guard behaviour that
  an empty source or target cloud can never report convergence.
- ROS publishing is pure emission except for `publishPath`, which also appends
  to the member `refined_path_`; the publishers' `getNumSubscribers()` values
  are passed in as the `Subs` record, and the wall clock `ros::Time::now()`
  used by `publishPath` is passed as `now`.
-/

namespace IcpSlam

/-- A 3D point (`pcl::PointXYZ`), coordinates modelled as exact integers. -/
structure Vec3 where
  x : ℤ
  y : ℤ
  z : ℤ
  deriving DecidableEq, Inhabited

def Vec3.add (a b : Vec3) : Vec3 := ⟨a.x + b.x, a.y + b.y, a.z + b.z⟩

def Vec3.neg (a : Vec3) : Vec3 := ⟨-a.x, -a.y, -a.z⟩

/-- A 3x3 matrix, row major, used as the rotation part of a rigid transform. -/
structure Mat3 where
  a00 : ℤ
  a01 : ℤ
  a02 : ℤ
  a10 : ℤ
  a11 : ℤ
  a12 : ℤ
  a20 : ℤ
  a21 : ℤ
  a22 : ℤ
  deriving DecidableEq, Inhabited

def Mat3.one : Mat3 := ⟨1, 0, 0, 0, 1, 0, 0, 0, 1⟩

def Mat3.mulVec (m : Mat3) (v : Vec3) : Vec3 :=
  ⟨m.a00 * v.x + m.a01 * v.y + m.a02 * v.z,
   m.a10 * v.x + m.a11 * v.y + m.a12 * v.z,
   m.a20 * v.x + m.a21 * v.y + m.a22 * v.z⟩

def Mat3.mul (m n : Mat3) : Mat3 :=
  ⟨m.a00 * n.a00 + m.a01 * n.a10 + m.a02 * n.a20,
   m.a00 * n.a01 + m.a01 * n.a11 + m.a02 * n.a21,
   m.a00 * n.a02 + m.a01 * n.a12 + m.a02 * n.a22,
   m.a10 * n.a00 + m.a11 * n.a10 + m.a12 * n.a20,
   m.a10 * n.a01 + m.a11 * n.a11 + m.a12 * n.a21,
   m.a10 * n.a02 + m.a11 * n.a12 + m.a12 * n.a22,
   m.a20 * n.a00 + m.a21 * n.a10 + m.a22 * n.a20,
   m.a20 * n.a01 + m.a21 * n.a11 + m.a22 * n.a21,
   m.a20 * n.a02 + m.a21 * n.a12 + m.a22 * n.a22⟩

def Mat3.transpose (m : Mat3) : Mat3 :=
  ⟨m.a00, m.a10, m.a20, m.a01, m.a11, m.a21, m.a02, m.a12, m.a22⟩

/-- Entrywise matrix addition, only used to state what pose composition is NOT. -/
def Mat3.addMat (m n : Mat3) : Mat3 :=
  ⟨m.a00 + n.a00, m.a01 + n.a01, m.a02 + n.a02,
   m.a10 + n.a10, m.a11 + n.a11, m.a12 + n.a12,
   m.a20 + n.a20, m.a21 + n.a21, m.a22 + n.a22⟩

/-- A rigid transform: rotation plus translation. The repository's `Pose6DOF`
also carries a timestamp; no claim under study depends on it, so path
timestamps are tracked separately alongside the pose (see `refined_path`). -/
structure Pose6DOF where
  rot : Mat3
  pos : Vec3
  deriving DecidableEq, Inhabited

/-- Identity pose. -/
def Pose6DOF.one : Pose6DOF := ⟨Mat3.one, ⟨0, 0, 0⟩⟩

/-- Well-formedness of a rigid transform: the rotation part is orthonormal
(spec data-model invariant: no shear/scale). A pose failing this is the
`MalformedTransform` case of the error taxonomy. -/
def Pose6DOF.isRigid (p : Pose6DOF) : Bool :=
  decide (Mat3.mul p.rot.transpose p.rot = Mat3.one)

/-- Modelled from the spec: `Pose6DOF::operator+` lives in the repository's
pose header, which is not among the sources; the spec defines the operation
used at `raw_pose + transform` as homogeneous-transform composition:
`R = a.R * b.R`, `t = a.t + a.R * b.t`. -/
def Pose6DOF.compose (a b : Pose6DOF) : Pose6DOF :=
  ⟨Mat3.mul a.rot b.rot, (a.rot.mulVec b.pos).add a.pos⟩

/-- Field-wise addition of pose components, written out from the spec's words
only to state what the composition must NOT be. -/
def Pose6DOF.fieldwiseAdd (a b : Pose6DOF) : Pose6DOF :=
  ⟨Mat3.addMat a.rot b.rot, a.pos.add b.pos⟩

/-- Modelled from the spec: `Pose6DOF::inverse` is declared in the repository's
pose header, not among the sources; the spec defines it as the rigid inverse
`(R⁻¹, -R⁻¹ t)`, where for an orthonormal rotation `R⁻¹ = Rᵀ`. -/
def Pose6DOF.inverse (p : Pose6DOF) : Pose6DOF :=
  ⟨p.rot.transpose, (p.rot.transpose.mulVec p.pos).neg⟩

/-- Application of a rigid transform to one point. -/
def applyPose (p : Pose6DOF) (v : Vec3) : Vec3 :=
  (p.rot.mulVec v).add p.pos

/-- The voxel cell of edge `r` containing a point: coordinatewise floor
division. This is the observable content of the PCL octree's leaf grid. -/
def voxelOf (r : ℤ) (v : Vec3) : ℤ × ℤ × ℤ :=
  (v.x.fdiv r, v.y.fdiv r, v.z.fdiv r)

/-- Embedding of `OctreeMapper::transformCloudToPoseFrame` (lines 92-99):
`pcl_ros::transformPointCloud` writes the transform of every input point into
the out-cloud; a malformed transform makes `tf` throw, the empty `catch`
swallows the exception, and the out-cloud keeps its prior content. The C++
function is `void`: its only observable effect is the final out-cloud content,
returned here. No failure indication of any kind is produced. -/
def transformCloudToPoseFrame (in_cloud : List Vec3) (pose : Pose6DOF)
    (out_cloud : List Vec3) : List Vec3 :=
  if pose.isRigid then in_cloud.map (applyPose pose) else out_cloud

/-- State of an `OctreeMapper`: the backing map cloud `map_cloud_`, the octree
resolution, and the accumulated `refined_path_` of (pose, timestamp) entries. -/
structure OctreeMapper where
  map_cloud : List Vec3
  resolution : ℤ
  refined_path : List (Pose6DOF × ℕ)
  deriving DecidableEq, Inhabited

/-- A freshly constructed mapper (constructor plus `init`/`resetMap`): empty
backing cloud, empty path, octree at the configured resolution. -/
def freshMapper (r : ℤ) : OctreeMapper := ⟨[], r, []⟩

/-- Embedding of `OctreeMapper::resetMap` (lines 56-60): rebuilds the octree at
resolution `r` and clears the backing cloud; the path member is untouched. -/
def OctreeMapper.resetMap (s : OctreeMapper) (r : ℤ) : OctreeMapper :=
  { s with map_cloud := [], resolution := r }

/-- Occupancy query `isVoxelOccupiedAtPoint` of the octree: some stored point
shares the query point's voxel. -/
def OctreeMapper.isVoxelOccupiedAtPoint (s : OctreeMapper) (p : Vec3) : Bool :=
  s.map_cloud.any fun q => decide (voxelOf s.resolution q = voxelOf s.resolution p)

/-- One iteration of the loop body of `OctreeMapper::addPointsToMap`
(lines 63-70), which is the spec's `insertUnique`: if the point's voxel is
unoccupied, the point is appended to the backing cloud (and its voxel becomes
occupied); the Boolean reports whether insertion happened. -/
def OctreeMapper.insertUnique (s : OctreeMapper) (p : Vec3) : OctreeMapper × Bool :=
  if s.isVoxelOccupiedAtPoint p then (s, false)
  else ({ s with map_cloud := s.map_cloud ++ [p] }, true)

/-- Embedding of `OctreeMapper::addPointsToMap` (lines 63-70): voxel-unique
insertion of every input point, in order. -/
def OctreeMapper.addPointsToMap (s : OctreeMapper) (input_cloud : List Vec3) : OctreeMapper :=
  input_cloud.foldl (fun st pt => (st.insertUnique pt).1) s

/-- Squared Euclidean distance between two points. -/
def sqDist (a b : Vec3) : ℤ :=
  (a.x - b.x) ^ 2 + (a.y - b.y) ^ 2 + (a.z - b.z) ^ 2

/-- Index of a closest point of the list to `q` (first one on ties), `none` on
the empty list. Deterministic model of the octree's approximate search result;
the theorems below use only that it is `none` exactly on the empty map and
otherwise an in-range index. -/
def nearestIdx (q : Vec3) : List Vec3 → Option ℕ
  | [] => none
  | p :: ps =>
    match nearestIdx q ps with
    | none => some 0
    | some j => if sqDist q p ≤ sqDist q (ps.getD j default) then some 0 else some (j + 1)

/-- Model of `map_octree_->approxNearestSearch`: writes `-1` into
`result_index` when the map is empty, otherwise the index of a stored point
near the query. -/
def approxNearestSearch (map_cloud : List Vec3) (q : Vec3) : ℤ :=
  match nearestIdx q map_cloud with
  | none => -1
  | some j => (j : ℤ)

/-- The accumulation loop of `OctreeMapper::approxNearestNeighbors`
(lines 79-87): for each scan point, a successful search (`result_index >= 0`)
pushes the map point at that index onto the output, in scan order. -/
def OctreeMapper.nnAccum (s : OctreeMapper) : List Vec3 → List Vec3
  | [] => []
  | p :: ps =>
    (if 0 ≤ approxNearestSearch s.map_cloud p then
      [s.map_cloud.getD (approxNearestSearch s.map_cloud p).toNat default]
    else []) ++ s.nnAccum ps

/-- Embedding of `OctreeMapper::approxNearestNeighbors` (lines 73-90): clears
the out-cloud, accumulates one partner per successful lookup, and returns
whether the result is non-empty. -/
def OctreeMapper.approxNearestNeighbors (s : OctreeMapper) (cloud : List Vec3) :
    List Vec3 × Bool :=
  (s.nnAccum cloud, decide (0 < (s.nnAccum cloud).length))

/-- Embedding of `OctreeMapper::estimateTransformICP` (lines 101-124). The
GICP optimizer of the external PCL library is abstracted as `engine`; the
guard kept here is the library's: `align` on an empty input source or target
aborts its initial computation, so `hasConverged()` stays false and no
exception escapes. On convergence the final transformation is written to the
out-parameter (returned as `some delta`); otherwise the out-parameter is
untouched (`none`). -/
def estimateTransformICP (engine : List Vec3 → List Vec3 → Option Pose6DOF)
    (curr_cloud nn_cloud : List Vec3) : Option Pose6DOF :=
  if curr_cloud.isEmpty || nn_cloud.isEmpty then none
  else engine curr_cloud nn_cloud

/-- Subscriber counts (`getNumSubscribers()`) of the four publishers, read at
emission time. -/
structure Subs where
  map_cloud_subs : ℕ
  nn_cloud_subs : ℕ
  registered_cloud_subs : ℕ
  refined_path_subs : ℕ
  deriving DecidableEq, Inhabited

/-- The correspondence cloud handed to ICP (lines 144-149): nearest neighbors
of the raw-transformed scan, mapped back by the inverse raw pose into the
scan's frame (out-clouds start empty at both call sites). -/
def nnCloud (s : OctreeMapper) (cloud : List Vec3) (raw_pose : Pose6DOF) : List Vec3 :=
  transformCloudToPoseFrame
    (s.approxNearestNeighbors (transformCloudToPoseFrame cloud raw_pose [])).1
    raw_pose.inverse []

/-- Embedding of `OctreeMapper::publishPath` (lines 126-131) restricted to its
state effect: `insertPoseInPath` appends `(latest_pose, ros::Time::now())` to
`refined_path_`; the publishing itself is emission only. -/
def OctreeMapper.publishPath (s : OctreeMapper) (latest_pose : Pose6DOF) (now : ℕ) :
    OctreeMapper :=
  { s with refined_path := s.refined_path ++ [(latest_pose, now)] }

/-- Embedding of `OctreeMapper::refineTransformAndGrowMap` (lines 133-173).
Inputs: the abstract ICP `engine`, the subscriber counts, the wall clock `now`,
the state, the header stamp, the scan, the raw pose, and the prior content
`transform0` of the out-parameter `transform`. Output: the new state, the
Boolean return value, and the final content of the out-parameter. The header
stamp is used only for message headers (pure emission), and the map-cloud,
nn-cloud and registered-cloud publications have no state effect; of the
publications only `publishPath`, gated by `refined_path_pub_` having
subscribers, mutates state. -/
def refineTransformAndGrowMap (engine : List Vec3 → List Vec3 → Option Pose6DOF)
    (subs : Subs) (now : ℕ) (s : OctreeMapper) (stamp : ℕ) (cloud : List Vec3)
    (raw_pose : Pose6DOF) (transform0 : Pose6DOF) : OctreeMapper × Bool × Pose6DOF :=
  if s.map_cloud.length = 0 then
    (s.addPointsToMap (transformCloudToPoseFrame cloud raw_pose []), false, transform0)
  else
    match estimateTransformICP engine cloud (nnCloud s cloud raw_pose) with
    | some delta =>
      let refined_pose := raw_pose.compose delta
      let s2 := s.addPointsToMap
        (transformCloudToPoseFrame cloud refined_pose
          (transformCloudToPoseFrame cloud raw_pose []))
      ((if 0 < subs.refined_path_subs then s2.publishPath refined_pose now else s2),
       true, delta)
    | none => (s, false, transform0)

/-- Pairwise-distinct voxels of a point list at resolution `r` (the "no
duplicate voxels" side condition of the spec's bootstrap scenario). -/
def distinctVoxels (r : ℤ) : List Vec3 → Bool
  | [] => true
  | p :: ps => (ps.all fun q => decide (voxelOf r p ≠ voxelOf r q)) && distinctVoxels r ps

/-- Iterated `insertUnique` of the same point, for the spec's dedup scenario. -/
def repeatInsert (s : OctreeMapper) (p : Vec3) : ℕ → OctreeMapper
  | 0 => s
  | n + 1 => ((repeatInsert s p n).insertUnique p).1

/-- A scan of 100 points falling in 100 distinct voxels at resolution 1. -/
def scan100 : List Vec3 := (List.range 100).map fun i => ⟨(i : ℤ), 0, 0⟩

/-- A malformed rigid transform: its rotation part scales by 2, hence is not
orthonormal. -/
def badPose : Pose6DOF := ⟨⟨2, 0, 0, 0, 2, 0, 0, 0, 2⟩, ⟨0, 0, 0⟩⟩

lemma insertUnique_fst_resolution (s : OctreeMapper) (p : Vec3) :
    ((s.insertUnique p).1).resolution = s.resolution := by
  unfold OctreeMapper.insertUnique
  split <;> rfl

lemma insertUnique_fst_refined_path (s : OctreeMapper) (p : Vec3) :
    ((s.insertUnique p).1).refined_path = s.refined_path := by
  unfold OctreeMapper.insertUnique
  split <;> rfl

lemma addPointsToMap_nil (s : OctreeMapper) : s.addPointsToMap [] = s := rfl

lemma addPointsToMap_cons (s : OctreeMapper) (p : Vec3) (l : List Vec3) :
    s.addPointsToMap (p :: l) = ((s.insertUnique p).1).addPointsToMap l := rfl

lemma addPointsToMap_refined_path (s : OctreeMapper) (l : List Vec3) :
    (s.addPointsToMap l).refined_path = s.refined_path := by
  induction l generalizing s with
  | nil => rfl
  | cons p ps ih => rw [addPointsToMap_cons, ih, insertUnique_fst_refined_path]

lemma isVoxelOccupied_of_empty (s : OctreeMapper) (p : Vec3)
    (h : s.map_cloud = []) : s.isVoxelOccupiedAtPoint p = false := by
  simp [OctreeMapper.isVoxelOccupiedAtPoint, h]

lemma isVoxelOccupied_append_one (s : OctreeMapper) (p q : Vec3) :
    ({ s with map_cloud := s.map_cloud ++ [p] } : OctreeMapper).isVoxelOccupiedAtPoint q
      = (s.isVoxelOccupiedAtPoint q
          || decide (voxelOf s.resolution p = voxelOf s.resolution q)) := by
  simp [OctreeMapper.isVoxelOccupiedAtPoint, List.any_append]

lemma insertUnique_of_unoccupied (s : OctreeMapper) (p : Vec3)
    (h : s.isVoxelOccupiedAtPoint p = false) :
    s.insertUnique p = ({ s with map_cloud := s.map_cloud ++ [p] }, true) := by
  simp [OctreeMapper.insertUnique, h]

lemma insertUnique_of_occupied (s : OctreeMapper) (p : Vec3)
    (h : s.isVoxelOccupiedAtPoint p = true) :
    s.insertUnique p = (s, false) := by
  simp [OctreeMapper.insertUnique, h]

/-- When every input point lands in a fresh voxel (unoccupied in the map and
pairwise distinct within the input), voxel-unique insertion appends the whole
input to the backing cloud, in order. -/
lemma addPointsToMap_map_cloud_all_new (l : List Vec3) (s : OctreeMapper)
    (hocc : ∀ p ∈ l, s.isVoxelOccupiedAtPoint p = false)
    (hd : distinctVoxels s.resolution l = true) :
    (s.addPointsToMap l).map_cloud = s.map_cloud ++ l := by
  induction l generalizing s with
  | nil => simp [addPointsToMap_nil]
  | cons p ps ih =>
    have hp : s.isVoxelOccupiedAtPoint p = false := hocc p (List.mem_cons_self p ps)
    rw [addPointsToMap_cons, insertUnique_of_unoccupied s p hp]
    have hd' := hd
    unfold distinctVoxels at hd'
    rw [Bool.and_eq_true, List.all_eq_true] at hd'
    have hres : ({ s with map_cloud := s.map_cloud ++ [p] } : OctreeMapper).resolution
        = s.resolution := rfl
    have hocc' : ∀ q ∈ ps,
        ({ s with map_cloud := s.map_cloud ++ [p] } : OctreeMapper).isVoxelOccupiedAtPoint q
          = false := by
      intro q hq
      rw [isVoxelOccupied_append_one]
      have h1 : s.isVoxelOccupiedAtPoint q = false := hocc q (List.mem_cons_of_mem p hq)
      have h2 : voxelOf s.resolution p ≠ voxelOf s.resolution q := by
        have := hd'.1 q hq
        simpa using this
      simp [h1, h2]
    have hd2 : distinctVoxels
        ({ s with map_cloud := s.map_cloud ++ [p] } : OctreeMapper).resolution ps = true := by
      rw [hres]; exact hd'.2
    rw [ih _ hocc' hd2]
    simp

lemma nnAccum_nil (s : OctreeMapper) : s.nnAccum [] = [] := rfl

lemma nnAccum_cons (s : OctreeMapper) (p : Vec3) (ps : List Vec3) :
    s.nnAccum (p :: ps)
      = (if 0 ≤ approxNearestSearch s.map_cloud p then
          [s.map_cloud.getD (approxNearestSearch s.map_cloud p).toNat default]
        else []) ++ s.nnAccum ps := rfl

lemma nnAccum_of_empty_map (s : OctreeMapper) (h : s.map_cloud = [])
    (cloud : List Vec3) : s.nnAccum cloud = [] := by
  induction cloud with
  | nil => rfl
  | cons p ps ih =>
    rw [nnAccum_cons, h, ih]
    simp [approxNearestSearch, nearestIdx]

lemma nnAccum_length_le (s : OctreeMapper) (cloud : List Vec3) :
    (s.nnAccum cloud).length ≤ cloud.length := by
  induction cloud with
  | nil => simp [nnAccum_nil]
  | cons p ps ih =>
    rw [nnAccum_cons, List.length_append, List.length_cons]
    split <;> simp <;> omega

lemma nnAccum_eq_filterMap (s : OctreeMapper) (cloud : List Vec3) :
    s.nnAccum cloud = cloud.filterMap fun p =>
      if 0 ≤ approxNearestSearch s.map_cloud p then
        some (s.map_cloud.getD (approxNearestSearch s.map_cloud p).toNat default)
      else none := by
  induction cloud with
  | nil => rfl
  | cons p ps ih =>
    by_cases h : 0 ≤ approxNearestSearch s.map_cloud p <;>
      simp [nnAccum_cons, List.filterMap_cons, h, ih]

lemma nearestIdx_lt_length (q : Vec3) (l : List Vec3) (j : ℕ)
    (h : nearestIdx q l = some j) : j < l.length := by
  induction l generalizing j with
  | nil => simp [nearestIdx] at h
  | cons p ps ih =>
    unfold nearestIdx at h
    cases hn : nearestIdx q ps with
    | none =>
      rw [hn] at h
      change (some 0 : Option ℕ) = some j at h
      rw [List.length_cons]
      have hj := Option.some.inj h
      omega
    | some j' =>
      rw [hn] at h
      have hj' := ih j' hn
      rw [List.length_cons]
      change (if sqDist q p ≤ sqDist q (ps.getD j' default) then some 0
        else some (j' + 1)) = some j at h
      by_cases hc : sqDist q p ≤ sqDist q (ps.getD j' default)
      · rw [if_pos hc] at h
        have hj := Option.some.inj h
        omega
      · rw [if_neg hc] at h
        have hj := Option.some.inj h
        omega

lemma mem_map_cloud_of_mem_nnAccum (s : OctreeMapper) (cloud : List Vec3)
    (q : Vec3) (hq : q ∈ s.nnAccum cloud) : q ∈ s.map_cloud := by
  induction cloud with
  | nil => simp [nnAccum_nil] at hq
  | cons p ps ih =>
    rw [nnAccum_cons] at hq
    rcases List.mem_append.mp hq with hl | hr
    · by_cases h : 0 ≤ approxNearestSearch s.map_cloud p
      · rw [if_pos h] at hl
        have hql : q = s.map_cloud.getD (approxNearestSearch s.map_cloud p).toNat default := by
          simpa using hl
        cases hn : nearestIdx p s.map_cloud with
        | none =>
          rw [approxNearestSearch, hn] at h
          simp at h
        | some j =>
          have hsearch : approxNearestSearch s.map_cloud p = (j : ℤ) := by
            rw [approxNearestSearch, hn]
          have hjlt : j < s.map_cloud.length := nearestIdx_lt_length p s.map_cloud j hn
          rw [hql, hsearch]
          have htn : ((j : ℤ)).toNat = j := Int.toNat_ofNat j
          rw [htn, List.getD_eq_getElem s.map_cloud default hjlt]
          exact List.getElem_mem hjlt
      · rw [if_neg h] at hl
        simp at hl
    · exact ih hr

lemma refine_eq_bootstrap (engine : List Vec3 → List Vec3 → Option Pose6DOF)
    (subs : Subs) (now : ℕ) (s : OctreeMapper) (stamp : ℕ) (cloud : List Vec3)
    (raw_pose transform0 : Pose6DOF) (h : s.map_cloud = []) :
    refineTransformAndGrowMap engine subs now s stamp cloud raw_pose transform0
      = (s.addPointsToMap (transformCloudToPoseFrame cloud raw_pose []), false, transform0) := by
  have h0 : s.map_cloud.length = 0 := by simp [h]
  unfold refineTransformAndGrowMap
  rw [if_pos h0]

lemma refine_eq_noconv (engine : List Vec3 → List Vec3 → Option Pose6DOF)
    (subs : Subs) (now : ℕ) (s : OctreeMapper) (stamp : ℕ) (cloud : List Vec3)
    (raw_pose transform0 : Pose6DOF) (h : s.map_cloud ≠ [])
    (hicp : estimateTransformICP engine cloud (nnCloud s cloud raw_pose) = none) :
    refineTransformAndGrowMap engine subs now s stamp cloud raw_pose transform0
      = (s, false, transform0) := by
  have h0 : ¬s.map_cloud.length = 0 := by simpa [List.length_eq_zero] using h
  unfold refineTransformAndGrowMap
  rw [if_neg h0, hicp]

lemma refine_eq_conv (engine : List Vec3 → List Vec3 → Option Pose6DOF)
    (subs : Subs) (now : ℕ) (s : OctreeMapper) (stamp : ℕ) (cloud : List Vec3)
    (raw_pose transform0 delta : Pose6DOF) (h : s.map_cloud ≠ [])
    (hicp : estimateTransformICP engine cloud (nnCloud s cloud raw_pose) = some delta) :
    refineTransformAndGrowMap engine subs now s stamp cloud raw_pose transform0
      = ((if 0 < subs.refined_path_subs then
            (s.addPointsToMap (transformCloudToPoseFrame cloud (raw_pose.compose delta)
              (transformCloudToPoseFrame cloud raw_pose []))).publishPath
              (raw_pose.compose delta) now
          else
            s.addPointsToMap (transformCloudToPoseFrame cloud (raw_pose.compose delta)
              (transformCloudToPoseFrame cloud raw_pose []))),
         true, delta) := by
  have h0 : ¬s.map_cloud.length = 0 := by simpa [List.length_eq_zero] using h
  unfold refineTransformAndGrowMap
  rw [if_neg h0, hicp]

lemma insertUnique_fresh (r : ℤ) (p : Vec3) :
    (freshMapper r).insertUnique p = (⟨[p], r, []⟩, true) := by
  rw [insertUnique_of_unoccupied _ _ (isVoxelOccupied_of_empty _ _ rfl)]
  rfl

lemma occupied_single (r : ℤ) (p : Vec3) :
    (⟨[p], r, []⟩ : OctreeMapper).isVoxelOccupiedAtPoint p = true := by
  simp [OctreeMapper.isVoxelOccupiedAtPoint]

lemma repeatInsert_fresh (r : ℤ) (p : Vec3) (m : ℕ) :
    repeatInsert (freshMapper r) p (m + 1) = ⟨[p], r, []⟩ := by
  induction m with
  | zero => rw [repeatInsert, repeatInsert, insertUnique_fresh]
  | succ k ih => rw [repeatInsert, ih, insertUnique_of_occupied _ _ (occupied_single r p)]

/-- Claim C2: in the Tracking state (map non-empty), when the registration
engine does not converge, `refineTransformAndGrowMap` returns `false` and the
whole state — in particular `map_cloud_` — is exactly what it was before the
call: no point of the scan is inserted (and the out-parameter is untouched). -/
theorem c2_no_convergence_leaves_map_unchanged
    (engine : List Vec3 → List Vec3 → Option Pose6DOF) (subs : Subs) (now : ℕ)
    (s : OctreeMapper) (stamp : ℕ) (cloud : List Vec3)
    (raw_pose transform0 : Pose6DOF)
    (hmap : s.map_cloud ≠ [])
    (hicp : estimateTransformICP engine cloud (nnCloud s cloud raw_pose) = none) :
    refineTransformAndGrowMap engine subs now s stamp cloud raw_pose transform0
      = (s, false, transform0) :=
  refine_eq_noconv engine subs now s stamp cloud raw_pose transform0 hmap hicp

theorem c2_witness :
    (⟨[⟨0, 0, 0⟩], 1, []⟩ : OctreeMapper).map_cloud ≠ []
    ∧ estimateTransformICP (fun _ _ => none) [⟨1, 1, 1⟩]
        (nnCloud ⟨[⟨0, 0, 0⟩], 1, []⟩ [⟨1, 1, 1⟩] Pose6DOF.one) = none
    ∧ refineTransformAndGrowMap (fun _ _ => none) ⟨1, 1, 1, 1⟩ 4
        ⟨[⟨0, 0, 0⟩], 1, []⟩ 9 [⟨1, 1, 1⟩] Pose6DOF.one Pose6DOF.one
        = (⟨[⟨0, 0, 0⟩], 1, []⟩, false, Pose6DOF.one) :=
  ⟨by decide, by decide,
    c2_no_convergence_leaves_map_unchanged _ _ _ _ _ _ _ _ (by decide) (by decide)⟩

/-- Claim C4: the map keeps at most one stored point per voxel: inserting into
an occupied voxel leaves the backing cloud unchanged, and for any point `p`
and any number `n ≥ 1` of `insertUnique p` calls on a fresh map, the first
call returns true, the backing cloud afterwards is exactly `[p]` (size 1), and
a further identical call still returns false. -/
theorem c4_voxel_dedup (r : ℤ) (p : Vec3) (n : ℕ) (hn : 1 ≤ n) :
    (∀ s : OctreeMapper, s.isVoxelOccupiedAtPoint p = true →
      ((s.insertUnique p).1).map_cloud = s.map_cloud)
    ∧ ((freshMapper r).insertUnique p).2 = true
    ∧ (repeatInsert (freshMapper r) p n).map_cloud = [p]
    ∧ ((repeatInsert (freshMapper r) p n).insertUnique p).2 = false := by
  obtain ⟨m, rfl⟩ : ∃ m, n = m + 1 := ⟨n - 1, by omega⟩
  refine ⟨?_, ?_, ?_, ?_⟩
  · intro s hs
    rw [insertUnique_of_occupied s p hs]
  · rw [insertUnique_fresh]
  · rw [repeatInsert_fresh]
  · rw [repeatInsert_fresh, insertUnique_of_occupied _ _ (occupied_single r p)]

theorem c4_witness :
    1 ≤ 3
    ∧ ((∀ s : OctreeMapper, s.isVoxelOccupiedAtPoint ⟨0, 0, 0⟩ = true →
        ((s.insertUnique ⟨0, 0, 0⟩).1).map_cloud = s.map_cloud)
      ∧ ((freshMapper 2).insertUnique ⟨0, 0, 0⟩).2 = true
      ∧ (repeatInsert (freshMapper 2) ⟨0, 0, 0⟩ 3).map_cloud = [⟨0, 0, 0⟩]
      ∧ ((repeatInsert (freshMapper 2) ⟨0, 0, 0⟩ 3).insertUnique ⟨0, 0, 0⟩).2 = false) :=
  ⟨by decide, c4_voxel_dedup 2 ⟨0, 0, 0⟩ 3 (by decide)⟩

/-- Claim C5 (amended): when `transformCloudToPoseFrame` is given a malformed
rigid transform, it leaves the caller's output cloud exactly as it was before
the call (it does not copy the input cloud into it) and swallows the exception
silently — the function is void and produces no failure indication — rather
than crashing. -/
theorem c5_malformed_transform_noop (in_cloud out_cloud : List Vec3)
    (pose : Pose6DOF) (h : pose.isRigid = false) :
    transformCloudToPoseFrame in_cloud pose out_cloud = out_cloud := by
  simp [transformCloudToPoseFrame, h]

theorem c5_witness :
    badPose.isRigid = false
    ∧ transformCloudToPoseFrame [⟨1, 0, 0⟩] badPose [⟨9, 9, 9⟩] = [⟨9, 9, 9⟩] :=
  ⟨by decide, c5_malformed_transform_noop _ _ _ (by decide)⟩

/-- Claim C5 counterexample: on a malformed transform (rotation part scaling
by 2, hence not orthonormal) with an empty out-cloud — the situation at every
call site — the caller does NOT receive the original input cloud back: the
out-cloud stays empty, so the claim that the operation "returns the original
cloud unmodified and reports the failure" fails on the returned-cloud part
(and the void function reports nothing). -/
theorem c5_counterexample :
    badPose.isRigid = false
    ∧ transformCloudToPoseFrame [⟨1, 0, 0⟩] badPose [] = []
    ∧ transformCloudToPoseFrame [⟨1, 0, 0⟩] badPose [] ≠ [⟨1, 0, 0⟩] := by
  decide

/-- Claim C8: with a degenerate input — empty source cloud or empty
target/correspondence cloud — the registration step reports no convergence
(the out-parameter never gets written), for every behaviour of the underlying
iterative optimizer; the embedding is a total function, so no exception is
thrown. -/
theorem c8_icp_degenerate_no_convergence
    (engine : List Vec3 → List Vec3 → Option Pose6DOF)
    (curr_cloud nn_cloud : List Vec3)
    (h : curr_cloud = [] ∨ nn_cloud = []) :
    estimateTransformICP engine curr_cloud nn_cloud = none := by
  unfold estimateTransformICP
  rcases h with h | h <;> simp [h]

theorem c8_witness :
    (([] : List Vec3) = [] ∨ ([⟨1, 2, 3⟩] : List Vec3) = [])
    ∧ estimateTransformICP (fun _ _ => some Pose6DOF.one) [] [⟨1, 2, 3⟩] = none :=
  ⟨Or.inl rfl, c8_icp_degenerate_no_convergence _ _ _ (Or.inl rfl)⟩

/-- Claim C10: when the growth transition takes the bootstrap branch (map was
empty) it returns failure and never writes the caller-supplied out-parameter
`transform`, which therefore still holds exactly its prior value. -/
theorem c10_bootstrap_preserves_out_param
    (engine : List Vec3 → List Vec3 → Option Pose6DOF) (subs : Subs) (now : ℕ)
    (s : OctreeMapper) (stamp : ℕ) (cloud : List Vec3)
    (raw_pose transform0 : Pose6DOF)
    (hmap : s.map_cloud = []) :
    (refineTransformAndGrowMap engine subs now s stamp cloud raw_pose transform0).2.2
      = transform0
    ∧ (refineTransformAndGrowMap engine subs now s stamp cloud raw_pose transform0).2.1
      = false := by
  rw [refine_eq_bootstrap engine subs now s stamp cloud raw_pose transform0 hmap]
  exact ⟨rfl, rfl⟩

theorem c10_witness :
    (freshMapper 1).map_cloud = []
    ∧ ((refineTransformAndGrowMap (fun _ _ => some Pose6DOF.one) ⟨1, 1, 1, 1⟩ 4
          (freshMapper 1) 9 [⟨1, 1, 1⟩] Pose6DOF.one badPose).2.2 = badPose
      ∧ (refineTransformAndGrowMap (fun _ _ => some Pose6DOF.one) ⟨1, 1, 1, 1⟩ 4
          (freshMapper 1) 9 [⟨1, 1, 1⟩] Pose6DOF.one badPose).2.1 = false) :=
  ⟨rfl, c10_bootstrap_preserves_out_param _ _ _ _ _ _ _ _ rfl⟩

/-- Claim C1: when registration converges, the refined pose used by the growth
transition — the pose the scan is re-transformed by before insertion, and the
pose appended to the refined path — is the homogeneous-transform composition
`compose raw_pose delta` (rotations multiply, `t = a.t + a.R * b.t`), and this
composition is not field-wise addition of pose components: the two operations
disagree already on composing the identity pose with itself. -/
theorem c1_refined_pose_is_composition
    (engine : List Vec3 → List Vec3 → Option Pose6DOF) (subs : Subs) (now : ℕ)
    (s : OctreeMapper) (stamp : ℕ) (cloud : List Vec3)
    (raw_pose transform0 delta : Pose6DOF)
    (hmap : s.map_cloud ≠ [])
    (hicp : estimateTransformICP engine cloud (nnCloud s cloud raw_pose) = some delta) :
    (refineTransformAndGrowMap engine subs now s stamp cloud raw_pose transform0).1.map_cloud
      = (s.addPointsToMap (transformCloudToPoseFrame cloud (raw_pose.compose delta)
          (transformCloudToPoseFrame cloud raw_pose []))).map_cloud
    ∧ (0 < subs.refined_path_subs →
        (refineTransformAndGrowMap engine subs now s stamp cloud
            raw_pose transform0).1.refined_path
          = s.refined_path ++ [(raw_pose.compose delta, now)])
    ∧ Pose6DOF.compose Pose6DOF.one Pose6DOF.one
        ≠ Pose6DOF.fieldwiseAdd Pose6DOF.one Pose6DOF.one := by
  rw [refine_eq_conv engine subs now s stamp cloud raw_pose transform0 delta hmap hicp]
  refine ⟨?_, ?_, by decide⟩
  · by_cases hs : 0 < subs.refined_path_subs
    · rw [if_pos hs]
      simp [OctreeMapper.publishPath]
    · rw [if_neg hs]
  · intro hs
    rw [if_pos hs]
    simp [OctreeMapper.publishPath, addPointsToMap_refined_path]

theorem c1_witness :
    (⟨[⟨0, 0, 0⟩], 1, []⟩ : OctreeMapper).map_cloud ≠ []
    ∧ estimateTransformICP (fun _ _ => some Pose6DOF.one) [⟨0, 0, 0⟩]
        (nnCloud ⟨[⟨0, 0, 0⟩], 1, []⟩ [⟨0, 0, 0⟩] Pose6DOF.one) = some Pose6DOF.one
    ∧ ((refineTransformAndGrowMap (fun _ _ => some Pose6DOF.one) ⟨0, 0, 0, 1⟩ 5
          ⟨[⟨0, 0, 0⟩], 1, []⟩ 7 [⟨0, 0, 0⟩] Pose6DOF.one Pose6DOF.one).1.map_cloud
        = ((⟨[⟨0, 0, 0⟩], 1, []⟩ : OctreeMapper).addPointsToMap
            (transformCloudToPoseFrame [⟨0, 0, 0⟩] (Pose6DOF.one.compose Pose6DOF.one)
              (transformCloudToPoseFrame [⟨0, 0, 0⟩] Pose6DOF.one []))).map_cloud
      ∧ (0 < (⟨0, 0, 0, 1⟩ : Subs).refined_path_subs →
          (refineTransformAndGrowMap (fun _ _ => some Pose6DOF.one) ⟨0, 0, 0, 1⟩ 5
              ⟨[⟨0, 0, 0⟩], 1, []⟩ 7 [⟨0, 0, 0⟩] Pose6DOF.one Pose6DOF.one).1.refined_path
            = (⟨[⟨0, 0, 0⟩], 1, []⟩ : OctreeMapper).refined_path
                ++ [(Pose6DOF.one.compose Pose6DOF.one, 5)])
      ∧ Pose6DOF.compose Pose6DOF.one Pose6DOF.one
          ≠ Pose6DOF.fieldwiseAdd Pose6DOF.one Pose6DOF.one) :=
  ⟨by decide, by decide,
    c1_refined_pose_is_composition _ _ _ _ _ _ _ _ _ (by decide) (by decide)⟩

/-- Claim C3: a scan arriving while the map is empty is transformed by the raw
pose, every transformed point is inserted through the voxel-unique insertion,
and the call reports failure; when the transformed points occupy pairwise
distinct voxels, the map afterwards holds exactly one point per scan point —
for a 100-point scan in 100 distinct voxels, exactly 100 points. -/
theorem c3_bootstrap_inserts_all
    (engine : List Vec3 → List Vec3 → Option Pose6DOF) (subs : Subs) (now : ℕ)
    (s : OctreeMapper) (stamp : ℕ) (cloud : List Vec3)
    (raw_pose transform0 : Pose6DOF)
    (hmap : s.map_cloud = [])
    (hr : raw_pose.isRigid = true)
    (hd : distinctVoxels s.resolution (cloud.map (applyPose raw_pose)) = true) :
    (refineTransformAndGrowMap engine subs now s stamp cloud raw_pose transform0).2.1 = false
    ∧ (refineTransformAndGrowMap engine subs now s stamp cloud
        raw_pose transform0).1.map_cloud = cloud.map (applyPose raw_pose)
    ∧ (refineTransformAndGrowMap engine subs now s stamp cloud
        raw_pose transform0).1.map_cloud.length = cloud.length := by
  rw [refine_eq_bootstrap engine subs now s stamp cloud raw_pose transform0 hmap]
  have htr : transformCloudToPoseFrame cloud raw_pose [] = cloud.map (applyPose raw_pose) := by
    simp [transformCloudToPoseFrame, hr]
  have hocc : ∀ p ∈ cloud.map (applyPose raw_pose), s.isVoxelOccupiedAtPoint p = false :=
    fun p _ => isVoxelOccupied_of_empty s p hmap
  have hmain : (s.addPointsToMap (cloud.map (applyPose raw_pose))).map_cloud
      = cloud.map (applyPose raw_pose) := by
    rw [addPointsToMap_map_cloud_all_new _ _ hocc hd, hmap]
    simp
  refine ⟨rfl, ?_, ?_⟩
  · show (s.addPointsToMap (transformCloudToPoseFrame cloud raw_pose [])).map_cloud = _
    rw [htr, hmain]
  · show (s.addPointsToMap (transformCloudToPoseFrame cloud raw_pose [])).map_cloud.length = _
    rw [htr, hmain, List.length_map]

set_option maxRecDepth 200000 in
theorem c3_witness : (freshMapper 1).map_cloud = []
    ∧ Pose6DOF.one.isRigid = true
    ∧ distinctVoxels (freshMapper 1).resolution (scan100.map (applyPose Pose6DOF.one)) = true
    ∧ scan100.length = 100
    ∧ ((refineTransformAndGrowMap (fun _ _ => none) ⟨1, 1, 1, 1⟩ 5
          (freshMapper 1) 7 scan100 Pose6DOF.one Pose6DOF.one).2.1 = false
      ∧ (refineTransformAndGrowMap (fun _ _ => none) ⟨1, 1, 1, 1⟩ 5
          (freshMapper 1) 7 scan100 Pose6DOF.one Pose6DOF.one).1.map_cloud
          = scan100.map (applyPose Pose6DOF.one)
      ∧ (refineTransformAndGrowMap (fun _ _ => none) ⟨1, 1, 1, 1⟩ 5
          (freshMapper 1) 7 scan100 Pose6DOF.one Pose6DOF.one).1.map_cloud.length
          = scan100.length) := by
  have hd : distinctVoxels (freshMapper 1).resolution
      (scan100.map (applyPose Pose6DOF.one)) = true := by decide
  exact ⟨rfl, by decide, hd, by decide,
    c3_bootstrap_inserts_all _ _ _ _ _ _ _ _ rfl (by decide) hd⟩

/-- Claim C6 (amended): the Refined Path is append-only and grows by exactly
one (pose, timestamp) entry on every successful refinement for which the path
publisher has at least one active subscriber; the appended pose is the refined
pose. (With zero subscribers the appending call is skipped entirely, see the
counterexample.) -/
theorem c6_path_grows_on_success_with_subscriber
    (engine : List Vec3 → List Vec3 → Option Pose6DOF) (subs : Subs) (now : ℕ)
    (s : OctreeMapper) (stamp : ℕ) (cloud : List Vec3)
    (raw_pose transform0 delta : Pose6DOF)
    (hmap : s.map_cloud ≠ [])
    (hicp : estimateTransformICP engine cloud (nnCloud s cloud raw_pose) = some delta)
    (hsub : 0 < subs.refined_path_subs) :
    (refineTransformAndGrowMap engine subs now s stamp cloud raw_pose transform0).2.1 = true
    ∧ (refineTransformAndGrowMap engine subs now s stamp cloud
        raw_pose transform0).1.refined_path
      = s.refined_path ++ [(raw_pose.compose delta, now)] := by
  rw [refine_eq_conv engine subs now s stamp cloud raw_pose transform0 delta hmap hicp]
  refine ⟨rfl, ?_⟩
  rw [if_pos hsub]
  simp [OctreeMapper.publishPath, addPointsToMap_refined_path]

theorem c6_witness :
    (⟨[⟨0, 0, 0⟩], 1, []⟩ : OctreeMapper).map_cloud ≠ []
    ∧ estimateTransformICP (fun _ _ => some Pose6DOF.one) [⟨0, 0, 0⟩]
        (nnCloud ⟨[⟨0, 0, 0⟩], 1, []⟩ [⟨0, 0, 0⟩] Pose6DOF.one) = some Pose6DOF.one
    ∧ 0 < (⟨0, 0, 0, 1⟩ : Subs).refined_path_subs
    ∧ ((refineTransformAndGrowMap (fun _ _ => some Pose6DOF.one) ⟨0, 0, 0, 1⟩ 5
          ⟨[⟨0, 0, 0⟩], 1, []⟩ 7 [⟨0, 0, 0⟩] Pose6DOF.one Pose6DOF.one).2.1 = true
      ∧ (refineTransformAndGrowMap (fun _ _ => some Pose6DOF.one) ⟨0, 0, 0, 1⟩ 5
          ⟨[⟨0, 0, 0⟩], 1, []⟩ 7 [⟨0, 0, 0⟩] Pose6DOF.one Pose6DOF.one).1.refined_path
        = (⟨[⟨0, 0, 0⟩], 1, []⟩ : OctreeMapper).refined_path
            ++ [(Pose6DOF.one.compose Pose6DOF.one, 5)]) :=
  ⟨by decide, by decide, by decide,
    c6_path_grows_on_success_with_subscriber _ _ _ _ _ _ _ _ _
      (by decide) (by decide) (by decide)⟩

/-- Claim C6 counterexample: a successful refinement (return value true) with
zero subscribers on the path publisher leaves `refined_path_` empty — the
Refined Path did NOT grow by one entry on this successful refinement, so the
claim as stated fails; the append is gated by `getNumSubscribers() > 0`. -/
theorem c6_counterexample :
    (refineTransformAndGrowMap (fun _ _ => some Pose6DOF.one) ⟨1, 1, 1, 0⟩ 5
        ⟨[⟨0, 0, 0⟩], 1, []⟩ 7 [⟨0, 0, 0⟩] Pose6DOF.one Pose6DOF.one).2.1 = true
    ∧ (refineTransformAndGrowMap (fun _ _ => some Pose6DOF.one) ⟨1, 1, 1, 0⟩ 5
        ⟨[⟨0, 0, 0⟩], 1, []⟩ 7 [⟨0, 0, 0⟩] Pose6DOF.one Pose6DOF.one).1.refined_path
      = [] := by
  decide

/-- Claim C7: the correspondence builder produces exactly one output entry per
successful nearest-neighbor lookup, in scan order (a filterMap of the scan);
hence the output is never longer than the input; its Boolean result is true
exactly when the output is non-empty; and on an empty map — in particular a
freshly reset or freshly constructed one — every lookup fails, giving the
empty cloud and false. -/
theorem c7_nn_output_shape (s : OctreeMapper) (cloud : List Vec3) :
    (s.approxNearestNeighbors cloud).1
      = cloud.filterMap (fun p =>
          if 0 ≤ approxNearestSearch s.map_cloud p then
            some (s.map_cloud.getD (approxNearestSearch s.map_cloud p).toNat default)
          else none)
    ∧ (s.approxNearestNeighbors cloud).1.length ≤ cloud.length
    ∧ ((s.approxNearestNeighbors cloud).2 = true ↔ (s.approxNearestNeighbors cloud).1 ≠ [])
    ∧ (s.map_cloud = [] → s.approxNearestNeighbors cloud = ([], false))
    ∧ (∀ r : ℤ, (s.resetMap r).approxNearestNeighbors cloud = ([], false))
    ∧ (∀ r : ℤ, (freshMapper r).approxNearestNeighbors cloud = ([], false)) := by
  refine ⟨nnAccum_eq_filterMap s cloud, nnAccum_length_le s cloud, ?_, ?_, ?_, ?_⟩
  · show decide (0 < (s.nnAccum cloud).length) = true ↔ s.nnAccum cloud ≠ []
    simp [List.length_pos]
  · intro h
    unfold OctreeMapper.approxNearestNeighbors
    rw [nnAccum_of_empty_map s h cloud]
    rfl
  · intro r
    unfold OctreeMapper.approxNearestNeighbors
    rw [nnAccum_of_empty_map _ rfl cloud]
    rfl
  · intro r
    unfold OctreeMapper.approxNearestNeighbors
    rw [nnAccum_of_empty_map _ rfl cloud]
    rfl

theorem c7_witness :
    (OctreeMapper.approxNearestNeighbors ⟨[⟨0, 0, 0⟩], 1, []⟩ [⟨2, 0, 0⟩]).1
      = List.filterMap (fun p =>
          if 0 ≤ approxNearestSearch (⟨[⟨0, 0, 0⟩], 1, []⟩ : OctreeMapper).map_cloud p then
            some ((⟨[⟨0, 0, 0⟩], 1, []⟩ : OctreeMapper).map_cloud.getD
              (approxNearestSearch (⟨[⟨0, 0, 0⟩], 1, []⟩ : OctreeMapper).map_cloud p).toNat
              default)
          else none) [⟨2, 0, 0⟩]
    ∧ (OctreeMapper.approxNearestNeighbors ⟨[⟨0, 0, 0⟩], 1, []⟩ [⟨2, 0, 0⟩]).1.length
        ≤ ([⟨2, 0, 0⟩] : List Vec3).length
    ∧ ((OctreeMapper.approxNearestNeighbors ⟨[⟨0, 0, 0⟩], 1, []⟩ [⟨2, 0, 0⟩]).2 = true
        ↔ (OctreeMapper.approxNearestNeighbors ⟨[⟨0, 0, 0⟩], 1, []⟩ [⟨2, 0, 0⟩]).1 ≠ [])
    ∧ ((⟨[⟨0, 0, 0⟩], 1, []⟩ : OctreeMapper).map_cloud = [] →
        OctreeMapper.approxNearestNeighbors ⟨[⟨0, 0, 0⟩], 1, []⟩ [⟨2, 0, 0⟩] = ([], false))
    ∧ (∀ r : ℤ, (OctreeMapper.resetMap ⟨[⟨0, 0, 0⟩], 1, []⟩ r).approxNearestNeighbors
        [⟨2, 0, 0⟩] = ([], false))
    ∧ (∀ r : ℤ, (freshMapper r).approxNearestNeighbors [⟨2, 0, 0⟩] = ([], false)) :=
  c7_nn_output_shape ⟨[⟨0, 0, 0⟩], 1, []⟩ [⟨2, 0, 0⟩]

/-- Claim C9: every point of the partner cloud returned by the
nearest-neighbor correspondence query is an element of the map's backing
cloud at query time — each successful lookup copies `map_cloud_[result_index]`. -/
theorem c9_nn_output_points_are_map_points (s : OctreeMapper) (cloud : List Vec3)
    (q : Vec3) (hq : q ∈ (s.approxNearestNeighbors cloud).1) : q ∈ s.map_cloud :=
  mem_map_cloud_of_mem_nnAccum s cloud q hq

theorem c9_witness :
    (⟨0, 0, 0⟩ : Vec3) ∈ (OctreeMapper.approxNearestNeighbors
        (⟨[⟨0, 0, 0⟩], 1, []⟩ : OctreeMapper) ([⟨2, 0, 0⟩] : List Vec3)).1
    ∧ (⟨0, 0, 0⟩ : Vec3) ∈ (⟨[⟨0, 0, 0⟩], 1, []⟩ : OctreeMapper).map_cloud :=
  ⟨by decide, c9_nn_output_points_are_map_points (⟨[⟨0, 0, 0⟩], 1, []⟩ : OctreeMapper)
    ([⟨2, 0, 0⟩] : List Vec3) ⟨0, 0, 0⟩ (by decide)⟩

end IcpSlam
